import Mathlib

/-!
Verification of the Connection Resilience Controller of rustplusplus-enhanced.

Shallow embedding of:
* `src/util/scheduledScraper.js` (second file in it: `ReconnectionManager`),
* `src/util/connectionHealthMonitor.js` (`ConnectionHealthMonitor`, basic),
* `src/util/rusthelpScraper.js` (second file in it: enhanced `ConnectionHealthMonitor`
  with server-fingerprint restart detection),
* `src/util/autoReconnectManager.js` (`AutoReconnectManager`),
* `src/discordEvents/error.js` (`triggerReconnection`).

JavaScript `Map`s keyed by guild id become functions `GuildId → Option _`;
`Date.now()` and `Math.random()` become explicit parameters; timers become
recorded pending-delay values.
-/

/-- Guild (tenant) identifiers are strings in the source. -/
abbrev GuildId := String

/-- Pointwise update of a guild-keyed map (JS `map.set(g, v)` / `map.delete(g)`). -/
def setKey {α : Type} (m : GuildId → α) (g : GuildId) (v : α) : GuildId → α :=
  fun g2 => if g2 = g then v else m g2

namespace ReconnectionManager

/-- Configuration of `ReconnectionManager` (constructor, scheduledScraper.js). -/
structure Config where
  baseDelay : Nat
  maxDelay : Nat
  maxRetries : Nat
  backoffMultiplier : Nat
  resetAfterSuccess : Nat
deriving DecidableEq

/-- The defaults applied in the constructor: 15000 ms base, 300000 ms max,
10 retries, multiplier 2, 60000 ms success-reset window. -/
def defaultConfig : Config :=
  { baseDelay := 15000, maxDelay := 300000, maxRetries := 10
    backoffMultiplier := 2, resetAfterSuccess := 60000 }

/-- Per-guild reconnection state (the object created in `initializeState`).
`timer` is `some d` when a retry timer with delay `d` is pending. -/
structure GuildState where
  isReconnecting : Bool
  retryCount : Nat
  currentDelay : Nat
  timer : Option Nat
  lastAttempt : Option Nat
  reconnectionReason : Option String
deriving DecidableEq

/-- The `reconnectionStates` map. -/
abbrev State := GuildId → Option GuildState

/-- The fresh per-guild record `initializeState` inserts. -/
def freshGuildState (cfg : Config) : GuildState :=
  { isReconnecting := false, retryCount := 0, currentDelay := cfg.baseDelay
    timer := none, lastAttempt := none, reconnectionReason := none }

/-- `initializeState(guildId)`: insert a fresh record if none is present. -/
def initializeState (cfg : Config) (s : State) (g : GuildId) : State :=
  match s g with
  | some _ => s
  | none => setKey s g (some (freshGuildState cfg))

/-- `resetState(guildId)`: clear the pending timer and delete the record. -/
def resetState (s : State) (g : GuildId) : State :=
  setKey s g none

/-- The guild state after `initializeState` has run (always present). -/
def getOrInitState (cfg : Config) (s : State) (g : GuildId) : GuildState :=
  (s g).getD (freshGuildState cfg)

/-- `shouldAttemptReconnection(guildId, reason)`: false while a reconnection is
already in progress or once `retryCount` has reached `maxRetries`. -/
def shouldAttemptReconnection (cfg : Config) (s : State) (g : GuildId) : Bool :=
  let st := getOrInitState cfg s g
  !st.isReconnecting && decide (st.retryCount < cfg.maxRetries)

/-- `calculateDelay(retryCount)`: exponential backoff clamped at `maxDelay`. -/
def calculateDelay (cfg : Config) (retryCount : Nat) : Nat :=
  min (cfg.baseDelay * cfg.backoffMultiplier ^ retryCount) cfg.maxDelay

/-- `addJitter(delay)`: `Math.floor(delay + Math.random() * 0.25 * delay)`.
The `Math.random()` draw is modelled as the exact rational `randNum / randDen`
(with `randNum < randDen` for a draw in `[0, 1)`); since `delay` is an integer,
`Math.floor(delay + (randNum / randDen) * 0.25 * delay)` equals
`delay + (randNum * delay) / (4 * randDen)` under floor division. -/
def addJitter (delay randNum randDen : Nat) : Nat :=
  delay + randNum * delay / (4 * randDen)

/-- `attemptReconnection(guildId, reason, connectionParams)` up to the point
where the retry timer is armed: guard via `shouldAttemptReconnection` (which
initializes missing state), then mark reconnecting, bump the retry counter,
compute the jittered delay — forced to `0` when `reason` is
`server_restart_detected` — and arm the timer. -/
def attemptReconnection (cfg : Config) (s : State) (g : GuildId) (reason : String)
    (randNum randDen : Nat) (now : Nat) : State :=
  if shouldAttemptReconnection cfg s g then
    let s1 := initializeState cfg s g
    let st := getOrInitState cfg s g
    let newRetry := st.retryCount + 1
    let baseDelay := calculateDelay cfg (newRetry - 1)
    let delayWithJitter :=
      if reason = "server_restart_detected" then 0 else addJitter baseDelay randNum randDen
    setKey s1 g (some
      { isReconnecting := true, retryCount := newRetry, currentDelay := delayWithJitter
        timer := some delayWithJitter, lastAttempt := some now
        reconnectionReason := some reason })
  else
    initializeState cfg s g

/-- `handleFailedReconnection(guildId, reason)` (also the catch branch of the
retry timer): clear the in-progress flag, keeping the retry counter. -/
def handleFailedReconnection (s : State) (g : GuildId) : State :=
  match s g with
  | none => s
  | some st => setKey s g (some { st with isReconnecting := false })

/-- One full failed attempt: an accepted `attemptReconnection` whose scheduled
connection attempt then fails, landing in the catch branch that clears
`isReconnecting` (the retry counter stays). -/
def failedAttempt (cfg : Config) (g : GuildId) (reason : String) (randNum randDen : Nat)
    (now : Nat) (s : State) : State :=
  handleFailedReconnection (attemptReconnection cfg s g reason randNum randDen now) g

/-- The body of the `setTimeout` armed by `markSuccessfulConnection(guildId)`:
when it fires, if the guild still has reconnection state, its retry counter and
delay are reset unconditionally. -/
def markSuccessfulConnectionReset (cfg : Config) (s : State) (g : GuildId) : State :=
  match s g with
  | none => s
  | some st => setKey s g (some { st with retryCount := 0, currentDelay := cfg.baseDelay })

/-- `handleSuccessfulReconnection(guildId)`: clear the in-progress flag (the
retry-counter reset is deferred to `markSuccessfulConnectionReset`). -/
def handleSuccessfulReconnection (s : State) (g : GuildId) : State :=
  match s g with
  | none => s
  | some st => setKey s g (some { st with isReconnecting := false })

end ReconnectionManager

namespace HealthBasic

/-- `maxConsecutiveFailures` of the basic monitor (connectionHealthMonitor.js). -/
def maxConsecutiveFailures : Nat := 3

/-- `handleHealthCheckFailure(guildId, rustplus, error)` of the basic monitor:
bump the consecutive-failure counter; once it reaches the threshold, reset it
to 0 and trigger a reconnection with reason `health_check_failure`. Returns the
new counter together with the reason of the triggered reconnection, if any. -/
def handleHealthCheckFailure (maxFails fails : Nat) : Nat × Option String :=
  let currentFailures := fails + 1
  if maxFails ≤ currentFailures then (0, some "health_check_failure")
  else (currentFailures, none)

/-- The success branch of `checkConnectionHealth`: any successful probe resets
the consecutive-failure counter to 0. -/
def healthCheckSuccess (_fails : Nat) : Nat := 0

end HealthBasic

namespace HealthEnhanced

/-- Server-identity fingerprint stored as `rustplus.lastServerInfo`
(rusthelpScraper.js, enhanced `ConnectionHealthMonitor`). -/
structure ServerInfo where
  name : String
  seed : Nat
  size : Nat
  wipeTime : Nat
deriving DecidableEq

/-- `maxConsecutiveFailures` of the enhanced monitor. -/
def maxConsecutiveFailures : Nat := 2

/-- The restart test in `performHealthCheckRequest`: the server counts as
changed when seed, size or wipe time differ (the name is not compared). -/
def serverChanged (cur last : ServerInfo) : Bool :=
  cur.seed != last.seed || cur.size != last.size || cur.wipeTime != last.wipeTime

/-- The fingerprint bookkeeping of `performHealthCheckRequest`: store the
fingerprint on first sight; on a later observation, detect a restart (second
component `true`) exactly when `serverChanged`, updating the stored value. -/
def fingerprintUpdate (last : Option ServerInfo) (cur : ServerInfo) :
    Option ServerInfo × Bool :=
  match last with
  | none => (some cur, false)
  | some l => if serverChanged cur l then (some cur, true) else (some l, false)

/-- Enhanced `handleHealthCheckFailure`: same counter logic as the basic
monitor; the triggered reasons are collected in a list. -/
def handleHealthCheckFailure (maxFails fails : Nat) : Nat × List String :=
  let currentFailures := fails + 1
  if maxFails ≤ currentFailures then (0, ["health_check_failure"])
  else (currentFailures, [])

/-- Outcome of the raced probe round trip in `checkConnectionHealth`: a
timeout / transport error / invalid response, or a valid `getInfo` response. -/
inductive ProbeResult where
  | failure : ProbeResult
  | success : ServerInfo → ProbeResult

/-- Enhanced `checkConnectionHealth` for one tenant, as a function of the
consecutive-failure counter, the stored fingerprint and the probe outcome.
Returns the new counter, the new stored fingerprint and the reasons of the
reconnections triggered, in order. A successful round trip whose fingerprint
mismatches triggers `server_restart_detected` inside
`performHealthCheckRequest` and then throws, so it additionally lands in
`handleHealthCheckFailure` like any failed probe. -/
def checkConnectionHealth (maxFails fails : Nat) (last : Option ServerInfo)
    (probe : ProbeResult) : Nat × Option ServerInfo × List String :=
  match probe with
  | ProbeResult.failure =>
    let r := handleHealthCheckFailure maxFails fails
    (r.1, last, r.2)
  | ProbeResult.success cur =>
    match last with
    | none => (0, some cur, [])
    | some l =>
      if serverChanged cur l then
        let r := handleHealthCheckFailure maxFails fails
        (r.1, some cur, "server_restart_detected" :: r.2)
      else (0, some l, [])

end HealthEnhanced

/-- A live Rust+ connection object (`client.rustplusInstances[guildId]`),
restricted to the fields the resilience controller reads and writes. -/
structure RustplusInstance where
  isOperational : Bool
  isDeleted : Bool
  isNewConnection : Bool
  server : String
  port : Nat
  playerId : String
  playerToken : Int
deriving DecidableEq

/-- An entry of `instance.serverList` (per-guild configuration). -/
structure ServerEntry where
  serverIp : String
  appPort : Nat
  steamId : String
  playerToken : Int
deriving DecidableEq

/-- The per-guild configuration object returned by `client.getInstance`. -/
structure GuildInstance where
  activeServer : Option String
  serverList : String → Option ServerEntry

namespace Client

/-- The client-level state the reconnection components share: per-guild
configuration, the live connection registry, the `activeRustplusInstances` and
`rustplusReconnecting` flags, the `ReconnectionManager` state, and a log of
every Transport Connection created (guild, ip, port), newest first. -/
structure ClientState where
  instances : GuildId → Option GuildInstance
  rustplusInstances : GuildId → Option RustplusInstance
  activeRustplusInstances : GuildId → Bool
  rustplusReconnecting : GuildId → Bool
  rmState : ReconnectionManager.State
  created : List (GuildId × String × Nat)

/-- Modelled from the spec: `client.createRustplusInstance` (the Transport
Connection factory, §6 `connect(endpoint, credentials)`), whose implementation
(`src/structures/DiscordBot.js`) is not under src/. It registers a fresh,
not-yet-operational connection for the tenant; the model also records the
creation event in `created`. -/
def createRustplusInstance (c : ClientState) (g : GuildId) (ip : String)
    (port : Nat) (pid : String) (tok : Int) : ClientState :=
  { c with
    rustplusInstances := setKey c.rustplusInstances g (some
      { isOperational := false, isDeleted := false, isNewConnection := false
        server := ip, port := port, playerId := pid, playerToken := tok })
    created := (g, ip, port) :: c.created }

/-- `ReconnectionManager.performReconnection(guildId, connectionParams)`: drop
any existing instance for the guild, then create a new one via the factory. -/
def performReconnection (c : ClientState) (g : GuildId) (server : String)
    (port : Nat) (pid : String) (tok : Int) : ClientState :=
  let c1 := { c with rustplusInstances := setKey c.rustplusInstances g none }
  createRustplusInstance c1 g server port pid tok

/-- `triggerReconnection(rustplus, client, reason)` of
`src/discordEvents/error.js`: unless the instance was deleted or the guild is
no longer active, route the reconnection through
`ReconnectionManager.attemptReconnection`. -/
def triggerReconnection (cfg : ReconnectionManager.Config) (c : ClientState)
    (g : GuildId) (reason : String) (jn jd now : Nat) : ClientState :=
  match c.rustplusInstances g with
  | none => c
  | some rp =>
    if rp.isDeleted || !c.activeRustplusInstances g then c
    else { c with
      rmState := ReconnectionManager.attemptReconnection cfg c.rmState g reason jn jd now }

/-- `triggerHealthCheckReconnection(guildId, rustplus)` of the health monitors:
mark the instance non-operational, then route the reconnection through
`ReconnectionManager.attemptReconnection` with reason `health_check_failure`. -/
def triggerHealthCheckReconnection (cfg : ReconnectionManager.Config)
    (c : ClientState) (g : GuildId) (jn jd now : Nat) : ClientState :=
  match c.rustplusInstances g with
  | none => c
  | some rp =>
    { c with
      rustplusInstances := setKey c.rustplusInstances g (some { rp with isOperational := false })
      rmState := ReconnectionManager.attemptReconnection cfg c.rmState g
        "health_check_failure" jn jd now }

/-- `triggerServerRestartReconnection(guildId, rustplus)` of the enhanced
monitor: mark non-operational, force-disconnect, then route through
`ReconnectionManager.attemptReconnection` with reason
`server_restart_detected`. -/
def triggerServerRestartReconnection (cfg : ReconnectionManager.Config)
    (c : ClientState) (g : GuildId) (jn jd now : Nat) : ClientState :=
  match c.rustplusInstances g with
  | none => c
  | some rp =>
    { c with
      rustplusInstances := setKey c.rustplusInstances g (some { rp with isOperational := false })
      rmState := ReconnectionManager.attemptReconnection cfg c.rmState g
        "server_restart_detected" jn jd now }

/-- Step 7 of `AutoReconnectManager.reconnectGuild`: flag the freshly created
instance as a new connection. -/
def markNewConnection (c : ClientState) (g : GuildId) : ClientState :=
  match c.rustplusInstances g with
  | none => c
  | some rp =>
    { c with rustplusInstances := setKey c.rustplusInstances g (some { rp with isNewConnection := true }) }

/-- `AutoReconnectManager.reconnectGuild(guildId, instance)`
(autoReconnectManager.js lines 130-188, non-throwing path): look up the active
server's connection info; re-store the configuration; tear down any existing
instance; set the `rustplusReconnecting` flag; create the new instance directly
through the factory; mark it as a new connection. The `ReconnectionManager` is
not consulted. -/
def reconnectGuild (c : ClientState) (g : GuildId) (inst : GuildInstance) : ClientState :=
  match inst.activeServer with
  | none => c
  | some serverId =>
    match inst.serverList serverId with
    | none => c
    | some serverInfo =>
      let c1 := { c with instances := setKey c.instances g (some { inst with activeServer := some serverId }) }
      let c2 :=
        match c1.rustplusInstances g with
        | some _ => { c1 with rustplusInstances := setKey c1.rustplusInstances g none }
        | none => c1
      let c3 := { c2 with rustplusReconnecting := setKey c2.rustplusReconnecting g true }
      let c4 := createRustplusInstance c3 g serverInfo.serverIp serverInfo.appPort
        serverInfo.steamId serverInfo.playerToken
      markNewConnection c4 g

/-- The `isCurrentlyConnected` expression of `checkGuildConnection`:
`activeRustplusInstances[g] && rustplusInstances[g] && rustplusInstances[g].isOperational`. -/
def observedOperational (c : ClientState) (g : GuildId) : Bool :=
  c.activeRustplusInstances g &&
    match c.rustplusInstances g with
    | some rp => rp.isOperational
    | none => false

/-- `AutoReconnectManager.checkGuildConnection(guildId)` (lines 68-106): skip
when already marked reconnecting, when no configuration exists, or when no
active server with connection info is configured; otherwise reconnect exactly
when the tenant is not observed operational. -/
def checkGuildConnection (c : ClientState) (g : GuildId) : ClientState :=
  if c.rustplusReconnecting g then c
  else
    match c.instances g with
    | none => c
    | some inst =>
      match inst.activeServer with
      | none => c
      | some serverId =>
        match inst.serverList serverId with
        | none => c
        | some _ =>
          if observedOperational c g then c
          else reconnectGuild c g inst

/-- The condition under which a reconciliation sweep reconnects a tenant,
read off the guards of `checkGuildConnection`. -/
def sweepWouldReconnect (c : ClientState) (g : GuildId) : Bool :=
  !c.rustplusReconnecting g &&
    match c.instances g with
    | none => false
    | some inst =>
      match inst.activeServer with
      | none => false
      | some serverId => (inst.serverList serverId).isSome && !observedOperational c g

/-- `AutoReconnectManager.forceReconnectGuild(guildId)` (lines 194-201):
whenever configuration with an active server exists, reconnect — with no check
of the operational state or of any reconnecting flag. -/
def forceReconnectGuild (c : ClientState) (g : GuildId) : ClientState :=
  match c.instances g with
  | none => c
  | some inst =>
    match inst.activeServer with
    | none => c
    | some _ => reconnectGuild c g inst

end Client

open ReconnectionManager Client

/-- A guild whose reconnection episode is exhausted (`retryCount = 10 ≥` every
`maxRetries` considered below). -/
def exhaustedSample : ReconnectionManager.State :=
  fun g2 => if g2 = "g1" then some ⟨false, 10, 15000, none, none, none⟩ else none

/-- A guild mid-stability-window with five failed attempts on record. -/
def flappingSample : ReconnectionManager.State :=
  fun g2 => if g2 = "g1" then some ⟨false, 5, 15000, none, none, none⟩ else none

/-- A guild mid-episode with seven failed attempts on record. -/
def midEpisodeSample : ReconnectionManager.State :=
  fun g2 => if g2 = "g1" then some ⟨false, 7, 15000, none, none, none⟩ else none

/-- A per-guild configuration with active server `srvA`. -/
def sampleInstance : GuildInstance :=
  { activeServer := some "srvA"
    serverList := fun sid =>
      if sid = "srvA" then some ⟨"1.2.3.4", 28082, "76561198000000000", 12345⟩ else none }

/-- A tenant with an active server configured, no live connection, no flags
set, and no `ReconnectionManager` state: pure reconciliation drift. -/
def driftClient : ClientState :=
  { instances := fun g2 => if g2 = "g1" then some sampleInstance else none
    rustplusInstances := fun _ => none
    activeRustplusInstances := fun _ => false
    rustplusReconnecting := fun _ => false
    rmState := fun _ => none
    created := [] }

/-- A tenant whose `ReconnectionManager` state says an episode is in flight
(`isReconnecting = true`), while its live instance is non-operational and the
`rustplusReconnecting` flag is down. -/
def bypassClient : ClientState :=
  { instances := fun g2 => if g2 = "g1" then some sampleInstance else none
    rustplusInstances := fun g2 =>
      if g2 = "g1" then some ⟨false, false, false, "1.2.3.4", 28082, "76561198000000000", 12345⟩
      else none
    activeRustplusInstances := fun g2 => if g2 = "g1" then true else false
    rustplusReconnecting := fun _ => false
    rmState := fun g2 =>
      if g2 = "g1" then some ⟨true, 4, 15000, none, none, some "health_check_failure"⟩ else none
    created := [] }

/-- A tenant whose connection is observed operational while the
`rustplusReconnecting` flag is also up (an attempt in flight). -/
def operationalClient : ClientState :=
  { instances := fun g2 => if g2 = "g1" then some sampleInstance else none
    rustplusInstances := fun g2 =>
      if g2 = "g1" then some ⟨true, false, false, "1.2.3.4", 28082, "76561198000000000", 12345⟩
      else none
    activeRustplusInstances := fun g2 => if g2 = "g1" then true else false
    rustplusReconnecting := fun g2 => if g2 = "g1" then true else false
    rmState := fun _ => none
    created := [] }

namespace ReconnectionManager

lemma initializeState_of_some (cfg : Config) (s : State) (g : GuildId) (st : GuildState)
    (hs : s g = some st) : initializeState cfg s g = s := by
  unfold initializeState
  rw [hs]

lemma getOrInitState_of_some (cfg : Config) (s : State) (g : GuildId) (st : GuildState)
    (hs : s g = some st) : getOrInitState cfg s g = st := by
  unfold getOrInitState
  rw [hs]
  rfl

/-- A request is rejected as a strict no-op while the guild is already
reconnecting or once its retry counter has reached the ceiling. -/
lemma attemptReconnection_rejected (cfg : Config) (s : State) (g : GuildId)
    (reason : String) (jn jd now : Nat) (st : GuildState) (hs : s g = some st)
    (hrej : st.isReconnecting = true ∨ cfg.maxRetries ≤ st.retryCount) :
    attemptReconnection cfg s g reason jn jd now = s := by
  have hshould : shouldAttemptReconnection cfg s g = false := by
    unfold shouldAttemptReconnection
    rw [getOrInitState_of_some cfg s g st hs]
    rcases hrej with h | h
    · simp [h]
    · simp [Nat.not_lt.mpr h]
  unfold attemptReconnection
  rw [hshould]
  simp [initializeState_of_some cfg s g st hs]

/-- Value of the guild's record right after an accepted request. -/
lemma attemptReconnection_accepted_apply (cfg : Config) (s : State) (g : GuildId)
    (reason : String) (jn jd now : Nat) (st : GuildState) (hs : s g = some st)
    (h1 : st.isReconnecting = false) (h2 : st.retryCount < cfg.maxRetries) :
    (attemptReconnection cfg s g reason jn jd now) g = some
      { isReconnecting := true, retryCount := st.retryCount + 1
        currentDelay :=
          if reason = "server_restart_detected" then 0
          else addJitter (calculateDelay cfg st.retryCount) jn jd
        timer := some
          (if reason = "server_restart_detected" then 0
           else addJitter (calculateDelay cfg st.retryCount) jn jd)
        lastAttempt := some now, reconnectionReason := some reason } := by
  have hshould : shouldAttemptReconnection cfg s g = true := by
    unfold shouldAttemptReconnection
    rw [getOrInitState_of_some cfg s g st hs]
    simp [h1, h2]
  unfold attemptReconnection
  rw [hshould]
  simp [getOrInitState_of_some cfg s g st hs, setKey]

/-- Value of the guild's record after an accepted request on a guild with no
state yet (e.g. right after `resetState`). -/
lemma attemptReconnection_none_apply (cfg : Config) (s : State) (g : GuildId)
    (reason : String) (jn jd now : Nat) (hs : s g = none) (hpos : 0 < cfg.maxRetries) :
    (attemptReconnection cfg s g reason jn jd now) g = some
      { isReconnecting := true, retryCount := 1
        currentDelay :=
          if reason = "server_restart_detected" then 0
          else addJitter (calculateDelay cfg 0) jn jd
        timer := some
          (if reason = "server_restart_detected" then 0
           else addJitter (calculateDelay cfg 0) jn jd)
        lastAttempt := some now, reconnectionReason := some reason } := by
  have hfresh : getOrInitState cfg s g = freshGuildState cfg := by
    unfold getOrInitState
    rw [hs]
    rfl
  have hshould : shouldAttemptReconnection cfg s g = true := by
    unfold shouldAttemptReconnection
    rw [hfresh]
    simp [freshGuildState, hpos]
  unfold attemptReconnection
  rw [hshould]
  simp [hfresh, setKey, freshGuildState]

lemma handleFailedReconnection_apply (s : State) (g : GuildId) (st : GuildState)
    (hs : s g = some st) :
    (handleFailedReconnection s g) g = some { st with isReconnecting := false } := by
  unfold handleFailedReconnection
  rw [hs]
  simp [setKey]

/-- After `k ≤ maxRetries` consecutive failed attempts starting from a freshly
initialized guild, the guild's record shows `retryCount = k` and no attempt in
flight. -/
lemma failedAttempt_iterate (cfg : Config) (g : GuildId) (reason : String)
    (jn jd now : Nat) (k : Nat) :
    k ≤ cfg.maxRetries →
    ∃ st : GuildState,
      ((failedAttempt cfg g reason jn jd now)^[k]
          (setKey (fun _ => none) g (some (freshGuildState cfg)))) g = some st
      ∧ st.isReconnecting = false ∧ st.retryCount = k := by
  induction k with
  | zero =>
    intro _
    exact ⟨freshGuildState cfg, by simp [setKey], rfl, rfl⟩
  | succ k ih =>
    intro hk
    obtain ⟨st, hst, hrec, hcount⟩ := ih (Nat.le_of_succ_le hk)
    rw [Function.iterate_succ_apply']
    have hlt : st.retryCount < cfg.maxRetries := by
      rw [hcount]
      exact Nat.lt_of_succ_le hk
    have hacc := attemptReconnection_accepted_apply cfg _ g reason jn jd now st hst hrec hlt
    refine ⟨_, handleFailedReconnection_apply _ g _ hacc, rfl, ?_⟩
    simp [hcount]

end ReconnectionManager

/-- C1: a reconnection request for a tenant that is already reconnecting, or
whose retry counter has reached `maxRetries`, is a rejected strict no-op — no
phase change, no counter change, no timer armed; after `maxRetries`
consecutive failed attempts every further request is rejected, and only
`resetState` makes requests accepted again (for every positive `maxRetries`,
hence in particular for `maxRetries ∈ \x7b1, 3, 10\x7d`). -/
theorem attemptReconnection_guard_and_exhaustion
    (cfg : Config) (g : GuildId) (reason reason2 : String)
    (jn jd now jn2 jd2 now2 : Nat) (hpos : 1 ≤ cfg.maxRetries) :
    (∀ (s : ReconnectionManager.State) (st : GuildState), s g = some st →
      (st.isReconnecting = true ∨ cfg.maxRetries ≤ st.retryCount) →
      attemptReconnection cfg s g reason jn jd now = s)
    ∧ (∀ sE : ReconnectionManager.State,
        sE = (failedAttempt cfg g reason jn jd now)^[cfg.maxRetries]
            (setKey (fun _ => none) g (some (freshGuildState cfg))) →
        attemptReconnection cfg sE g reason2 jn2 jd2 now2 = sE
        ∧ ((attemptReconnection cfg (resetState sE g) g reason2 jn2 jd2 now2) g).map
            GuildState.isReconnecting = some true
        ∧ ((attemptReconnection cfg (resetState sE g) g reason2 jn2 jd2 now2) g).map
            GuildState.retryCount = some 1) := by
  constructor
  · intro s st hs hrej
    exact attemptReconnection_rejected cfg s g reason jn jd now st hs hrej
  · intro sE hE
    obtain ⟨st, hst, hrec, hcount⟩ :=
      failedAttempt_iterate cfg g reason jn jd now cfg.maxRetries le_rfl
    rw [← hE] at hst
    have hnone : (resetState sE g) g = none := by simp [resetState, setKey]
    refine ⟨attemptReconnection_rejected cfg sE g reason2 jn2 jd2 now2 st hst
      (Or.inr (le_of_eq hcount.symm)), ?_, ?_⟩
    · rw [attemptReconnection_none_apply cfg _ g reason2 jn2 jd2 now2 hnone hpos]
      rfl
    · rw [attemptReconnection_none_apply cfg _ g reason2 jn2 jd2 now2 hnone hpos]
      rfl

/-- Witness for C1: with `maxRetries` 1, 3 and 10 and a tenant whose counter
stands at 10, a further request leaves the state untouched. -/
theorem attemptReconnection_guard_witness :
    attemptReconnection ⟨15000, 300000, 1, 2, 60000⟩ exhaustedSample "g1"
        "connection_lost" 0 1 0 = exhaustedSample
    ∧ attemptReconnection ⟨15000, 300000, 3, 2, 60000⟩ exhaustedSample "g1"
        "connection_lost" 0 1 0 = exhaustedSample
    ∧ attemptReconnection ⟨15000, 300000, 10, 2, 60000⟩ exhaustedSample "g1"
        "connection_lost" 0 1 0 = exhaustedSample :=
  ⟨(attemptReconnection_guard_and_exhaustion ⟨15000, 300000, 1, 2, 60000⟩ "g1"
      "connection_lost" "connection_lost" 0 1 0 0 1 0 (by decide)).1 exhaustedSample
      ⟨false, 10, 15000, none, none, none⟩ rfl (Or.inr (by decide)),
   (attemptReconnection_guard_and_exhaustion ⟨15000, 300000, 3, 2, 60000⟩ "g1"
      "connection_lost" "connection_lost" 0 1 0 0 1 0 (by decide)).1 exhaustedSample
      ⟨false, 10, 15000, none, none, none⟩ rfl (Or.inr (by decide)),
   (attemptReconnection_guard_and_exhaustion ⟨15000, 300000, 10, 2, 60000⟩ "g1"
      "connection_lost" "connection_lost" 0 1 0 0 1 0 (by decide)).1 exhaustedSample
      ⟨false, 10, 15000, none, none, none⟩ rfl (Or.inr (by decide))⟩

/-- C2: an accepted reconnection request that brings the retry counter to `n`
uses the pre-jitter delay `calculateDelay (n-1) = min(baseDelay *
backoffMultiplier^(n-1), maxDelay)`; with the default configuration the retry
counts 1, 2, 3, 4 yield 15000, 30000, 60000, 120000 ms and retry count 6
yields the clamped 300000 ms. -/
theorem acceptedDelay_exponential_backoff
    (cfg : Config) (g : GuildId) (reason : String) (jn jd now : Nat) (n : Nat)
    (hn : 1 ≤ n) :
    calculateDelay cfg (n - 1)
      = min (cfg.baseDelay * cfg.backoffMultiplier ^ (n - 1)) cfg.maxDelay
    ∧ (∀ (s : ReconnectionManager.State) (st : GuildState), s g = some st →
        st.isReconnecting = false → st.retryCount + 1 = n → n ≤ cfg.maxRetries →
        reason ≠ "server_restart_detected" →
        ((attemptReconnection cfg s g reason jn jd now) g).map GuildState.currentDelay
          = some (addJitter (calculateDelay cfg (n - 1)) jn jd))
    ∧ calculateDelay defaultConfig (1 - 1) = 15000
    ∧ calculateDelay defaultConfig (2 - 1) = 30000
    ∧ calculateDelay defaultConfig (3 - 1) = 60000
    ∧ calculateDelay defaultConfig (4 - 1) = 120000
    ∧ calculateDelay defaultConfig (6 - 1) = 300000 := by
  refine ⟨rfl, ?_, by decide, by decide, by decide, by decide, by decide⟩
  intro s st hs h1 hret hmax hne
  have hlt : st.retryCount < cfg.maxRetries := by omega
  have hcount : st.retryCount = n - 1 := by omega
  rw [attemptReconnection_accepted_apply cfg s g reason jn jd now st hs h1 hlt]
  rw [← hcount]
  simp [hne]

/-- Witness for C2: an accepted request bringing the counter to 2 (default
configuration, zero jitter draw) records the raw 30000 ms delay. -/
theorem acceptedDelay_exponential_backoff_witness :
    ((attemptReconnection defaultConfig
        (fun g2 => if g2 = "g1" then some ⟨false, 1, 15000, none, none, none⟩ else none)
        "g1" "connection_lost" 0 1 0) "g1").map GuildState.currentDelay
      = some (addJitter (calculateDelay defaultConfig (2 - 1)) 0 1) :=
  (acceptedDelay_exponential_backoff defaultConfig "g1" "connection_lost" 0 1 0 2
      (by decide)).2.1 _ ⟨false, 1, 15000, none, none, none⟩ rfl rfl rfl (by decide)
      (by decide)

/-- C3: under the default configuration, `calculateDelay` is non-decreasing
and never exceeds `maxDelay` (the forced-zero branch for
`server_restart_detected` lives in `attemptReconnection`, not here). -/
theorem calculateDelay_monotone_bounded (m n : Nat) (hmn : m ≤ n) :
    calculateDelay defaultConfig m ≤ calculateDelay defaultConfig n
    ∧ ∀ k, calculateDelay defaultConfig k ≤ defaultConfig.maxDelay := by
  constructor
  · exact min_le_min
      (Nat.mul_le_mul_left _ (Nat.pow_le_pow_right (by decide) hmn)) le_rfl
  · intro k
    exact min_le_right _ _

/-- Witness for C3 at `m = 1`, `n = 3`. -/
theorem calculateDelay_monotone_bounded_witness :
    calculateDelay defaultConfig 1 ≤ calculateDelay defaultConfig 3
    ∧ ∀ k, calculateDelay defaultConfig k ≤ defaultConfig.maxDelay :=
  calculateDelay_monotone_bounded 1 3 (by decide)

/-- C8 counterexample: a failure during the stability window (a sixth failed
attempt) does not prevent the reset — when the `markSuccessfulConnection`
timer fires, the retry counter is zeroed anyway. -/
theorem stabilityWindow_reset_counterexample :
    ((failedAttempt defaultConfig "g1" "connection_lost" 0 1 0 flappingSample) "g1").map
      GuildState.retryCount = some 6
    ∧ ((markSuccessfulConnectionReset defaultConfig
        (failedAttempt defaultConfig "g1" "connection_lost" 0 1 0 flappingSample) "g1") "g1").map
      GuildState.retryCount = some 0 := by
  exact ⟨rfl, rfl⟩

/-- C8 amended: when the post-success reset timer fires, the retry counter and
delay are reset unconditionally for any still-registered tenant — failures
during the stability window do not prevent the reset; only deleting the
tenant's state (`resetState` / teardown) does. -/
theorem markSuccessfulConnectionReset_unconditional (cfg : Config)
    (s : ReconnectionManager.State) (g : GuildId) :
    (∀ st : GuildState, s g = some st →
      (markSuccessfulConnectionReset cfg s g) g
        = some { st with retryCount := 0, currentDelay := cfg.baseDelay })
    ∧ (s g = none → markSuccessfulConnectionReset cfg s g = s) := by
  constructor
  · intro st hs
    unfold markSuccessfulConnectionReset
    rw [hs]
    simp [setKey]
  · intro hs
    unfold markSuccessfulConnectionReset
    rw [hs]

/-- Witness for C8's amended claim: the reset zeroes a counter of 5. -/
theorem markSuccessfulConnectionReset_unconditional_witness :
    (markSuccessfulConnectionReset defaultConfig flappingSample "g1") "g1"
      = some ⟨false, 0, 15000, none, none, none⟩ :=
  (markSuccessfulConnectionReset_unconditional defaultConfig flappingSample "g1").1
    ⟨false, 5, 15000, none, none, none⟩ rfl

/-- C4 counterexample: with the default configuration and a tenant whose retry
counter stands at `maxRetries = 10`, a fingerprint mismatch (seed and wipe time
changed) is detected, yet the resulting `server_restart_detected` request is
rejected by the retry ceiling: the state is untouched and no episode with that
reason comes into being. -/
theorem restartEpisode_exhausted_counterexample :
    HealthEnhanced.serverChanged ⟨"srv", 2, 3500, 200⟩ ⟨"srv", 1, 3500, 100⟩ = true
    ∧ HealthEnhanced.fingerprintUpdate (some ⟨"srv", 1, 3500, 100⟩) ⟨"srv", 2, 3500, 200⟩
        = (some ⟨"srv", 2, 3500, 200⟩, true)
    ∧ attemptReconnection defaultConfig exhaustedSample "g1" "server_restart_detected" 0 1 0
        = exhaustedSample
    ∧ (exhaustedSample "g1").map GuildState.reconnectionReason = some none := by
  exact ⟨rfl, rfl, rfl, rfl⟩

/-- C4 amended: a fingerprint mismatch observed after a prior successful
capture produces a `server_restart_detected` episode with zero scheduled delay
(backoff and jitter bypassed) for every retry count below `maxRetries`, the
tenant not already reconnecting — with `retryCount ≥ maxRetries` the request
is rejected and no episode occurs. -/
theorem restartEpisode_zero_delay (cfg : Config) (s : ReconnectionManager.State)
    (g : GuildId) (l cur : HealthEnhanced.ServerInfo) (jn jd now : Nat)
    (st : GuildState) (hs : s g = some st) (h1 : st.isReconnecting = false)
    (h2 : st.retryCount < cfg.maxRetries)
    (hch : HealthEnhanced.serverChanged cur l = true) :
    HealthEnhanced.fingerprintUpdate (some l) cur = (some cur, true)
    ∧ (attemptReconnection cfg s g "server_restart_detected" jn jd now) g
        = some { isReconnecting := true, retryCount := st.retryCount + 1
                 currentDelay := 0, timer := some 0, lastAttempt := some now
                 reconnectionReason := some "server_restart_detected" } := by
  constructor
  · simp [HealthEnhanced.fingerprintUpdate, hch]
  · rw [attemptReconnection_accepted_apply cfg s g _ jn jd now st hs h1 h2]
    simp

/-- Witness for C4's amended claim at retry count 7 of 10. -/
theorem restartEpisode_zero_delay_witness :
    HealthEnhanced.fingerprintUpdate (some ⟨"srv", 1, 3500, 100⟩) ⟨"srv", 1, 3500, 999⟩
      = (some ⟨"srv", 1, 3500, 999⟩, true)
    ∧ (attemptReconnection defaultConfig midEpisodeSample "g1" "server_restart_detected" 0 1 0) "g1"
      = some { isReconnecting := true, retryCount := 8, currentDelay := 0
               timer := some 0, lastAttempt := some 0
               reconnectionReason := some "server_restart_detected" } :=
  restartEpisode_zero_delay defaultConfig midEpisodeSample "g1" ⟨"srv", 1, 3500, 100⟩
    ⟨"srv", 1, 3500, 999⟩ 0 1 0 ⟨false, 7, 15000, none, none, none⟩ rfl rfl (by decide) rfl

/-- C5: in the basic health monitor with threshold 3, every failed probe
increments the consecutive-failure counter by exactly 1 while below the
threshold and triggers nothing; the instant the counter reaches the threshold,
exactly one `health_check_failure` reconnection is triggered and the counter is
reset to 0 in the same step, so the observable counter never exceeds (indeed
never reaches) the threshold; any successful probe resets it to 0. Three
consecutive failures from a clean slate trigger exactly once, on the third. -/
theorem healthFailureCounter_threshold :
    (∀ fails : Nat, fails + 1 < HealthBasic.maxConsecutiveFailures →
      HealthBasic.handleHealthCheckFailure HealthBasic.maxConsecutiveFailures fails
        = (fails + 1, none))
    ∧ (∀ fails : Nat, HealthBasic.maxConsecutiveFailures ≤ fails + 1 →
      HealthBasic.handleHealthCheckFailure HealthBasic.maxConsecutiveFailures fails
        = (0, some "health_check_failure"))
    ∧ (∀ fails : Nat,
      (HealthBasic.handleHealthCheckFailure HealthBasic.maxConsecutiveFailures fails).1
        < HealthBasic.maxConsecutiveFailures)
    ∧ (∀ fails : Nat, HealthBasic.healthCheckSuccess fails = 0)
    ∧ HealthBasic.handleHealthCheckFailure HealthBasic.maxConsecutiveFailures 0 = (1, none)
    ∧ HealthBasic.handleHealthCheckFailure HealthBasic.maxConsecutiveFailures 1 = (2, none)
    ∧ HealthBasic.handleHealthCheckFailure HealthBasic.maxConsecutiveFailures 2
        = (0, some "health_check_failure") := by
  refine ⟨?_, ?_, ?_, fun _ => rfl, by decide, by decide, by decide⟩
  · intro fails h
    unfold HealthBasic.handleHealthCheckFailure
    rw [if_neg (by omega)]
  · intro fails h
    unfold HealthBasic.handleHealthCheckFailure
    rw [if_pos (by omega)]
  · intro fails
    unfold HealthBasic.handleHealthCheckFailure
    dsimp only
    split
    · decide
    · next h => exact lt_of_not_le h

/-- Witness for C5: the second failure increments 1 to 2 without triggering;
the third triggers once and resets the counter. -/
theorem healthFailureCounter_threshold_witness :
    HealthBasic.handleHealthCheckFailure HealthBasic.maxConsecutiveFailures 1 = (2, none)
    ∧ HealthBasic.handleHealthCheckFailure HealthBasic.maxConsecutiveFailures 2
        = (0, some "health_check_failure") :=
  ⟨healthFailureCounter_threshold.1 1 (by decide),
   healthFailureCounter_threshold.2.1 2 (by decide)⟩

/-- C10: in the enhanced monitor, a probe whose round trip succeeds but whose
fingerprint differs from the stored one is routed through the failure handler
(the restart detection is thrown into the catch path): the probe both triggers
the `server_restart_detected` reconnection and is recorded as a failed probe,
incrementing the consecutive-failure counter by 1 (threshold logic applying as
for any failure). -/
theorem restartProbe_counted_as_failure (maxFails fails : Nat)
    (l cur : HealthEnhanced.ServerInfo)
    (hch : HealthEnhanced.serverChanged cur l = true) :
    HealthEnhanced.checkConnectionHealth maxFails fails (some l)
        (HealthEnhanced.ProbeResult.success cur)
      = ((HealthEnhanced.handleHealthCheckFailure maxFails fails).1, some cur,
          "server_restart_detected" :: (HealthEnhanced.handleHealthCheckFailure maxFails fails).2)
    ∧ (fails + 1 < maxFails →
        (HealthEnhanced.checkConnectionHealth maxFails fails (some l)
          (HealthEnhanced.ProbeResult.success cur)).1 = fails + 1) := by
  constructor
  · simp [HealthEnhanced.checkConnectionHealth, hch]
  · intro h
    simp [HealthEnhanced.checkConnectionHealth, hch,
      HealthEnhanced.handleHealthCheckFailure, Nat.not_le.mpr h]

/-- Witness for C10: with the enhanced threshold 2 and a clean failure
counter, a fingerprint-mismatch probe triggers the restart episode and leaves
the counter at 1. -/
theorem restartProbe_counted_as_failure_witness :
    HealthEnhanced.checkConnectionHealth HealthEnhanced.maxConsecutiveFailures 0
        (some ⟨"srv", 1, 3500, 100⟩)
        (HealthEnhanced.ProbeResult.success ⟨"srv", 1, 4000, 100⟩)
      = (1, some ⟨"srv", 1, 4000, 100⟩, ["server_restart_detected"])
    ∧ (HealthEnhanced.checkConnectionHealth HealthEnhanced.maxConsecutiveFailures 0
        (some ⟨"srv", 1, 3500, 100⟩)
        (HealthEnhanced.ProbeResult.success ⟨"srv", 1, 4000, 100⟩)).1 = 1 :=
  ⟨(restartProbe_counted_as_failure HealthEnhanced.maxConsecutiveFailures 0
      ⟨"srv", 1, 3500, 100⟩ ⟨"srv", 1, 4000, 100⟩ (by decide)).1,
   (restartProbe_counted_as_failure HealthEnhanced.maxConsecutiveFailures 0
      ⟨"srv", 1, 3500, 100⟩ ⟨"srv", 1, 4000, 100⟩ (by decide)).2 (by decide)⟩

namespace Client

lemma reconnectGuild_effects (c : ClientState) (g : GuildId) (inst : GuildInstance)
    (serverId : String) (si : ServerEntry) (ha : inst.activeServer = some serverId)
    (hsi : inst.serverList serverId = some si) :
    (reconnectGuild c g inst).created = (g, si.serverIp, si.appPort) :: c.created
    ∧ (reconnectGuild c g inst).rmState = c.rmState
    ∧ (reconnectGuild c g inst).rustplusReconnecting g = true
    ∧ ((reconnectGuild c g inst).rustplusInstances g).map RustplusInstance.isNewConnection
        = some true
    ∧ ((reconnectGuild c g inst).rustplusInstances g).map RustplusInstance.isOperational
        = some false := by
  unfold reconnectGuild
  rw [ha]
  dsimp only
  rw [hsi]
  dsimp only
  split <;> simp [markNewConnection, createRustplusInstance, setKey]

lemma reconnectGuild_rmState (c : ClientState) (g : GuildId) (inst : GuildInstance) :
    (reconnectGuild c g inst).rmState = c.rmState := by
  unfold reconnectGuild
  split
  · rfl
  · split
    · rfl
    · dsimp only
      split <;> simp [markNewConnection, createRustplusInstance, setKey]

lemma checkGuildConnection_rmState (c : ClientState) (g : GuildId) :
    (checkGuildConnection c g).rmState = c.rmState := by
  unfold checkGuildConnection
  split
  · rfl
  · split
    · rfl
    · split
      · rfl
      · split
        · rfl
        · split
          · rfl
          · exact reconnectGuild_rmState c g _

lemma checkGuildConnection_of_reconnecting (c : ClientState) (g : GuildId)
    (h : c.rustplusReconnecting g = true) : checkGuildConnection c g = c := by
  simp [checkGuildConnection, h]

lemma checkGuildConnection_not_triggered (c : ClientState) (g : GuildId)
    (h : sweepWouldReconnect c g = false) : checkGuildConnection c g = c := by
  unfold sweepWouldReconnect at h
  cases hrec : c.rustplusReconnecting g with
  | true => simp [checkGuildConnection, hrec]
  | false =>
    simp only [hrec, Bool.not_false, Bool.true_and] at h
    cases hinst : c.instances g with
    | none => simp [checkGuildConnection, hrec, hinst]
    | some inst =>
      simp only [hinst] at h
      cases hA : inst.activeServer with
      | none => simp [checkGuildConnection, hrec, hinst, hA]
      | some serverId =>
        simp only [hA] at h
        cases hsi : inst.serverList serverId with
        | none => simp [checkGuildConnection, hrec, hinst, hA, hsi]
        | some si =>
          simp only [hsi, Option.isSome_some, Bool.true_and] at h
          have hop : observedOperational c g = true := by
            revert h
            cases observedOperational c g <;> simp
          simp [checkGuildConnection, hrec, hinst, hA, hsi, hop]

lemma checkGuildConnection_triggered (c : ClientState) (g : GuildId)
    (h : sweepWouldReconnect c g = true) :
    ∃ inst serverId si, c.instances g = some inst ∧ inst.activeServer = some serverId
      ∧ inst.serverList serverId = some si
      ∧ checkGuildConnection c g = reconnectGuild c g inst := by
  unfold sweepWouldReconnect at h
  cases hrec : c.rustplusReconnecting g with
  | true => rw [hrec] at h; simp at h
  | false =>
    simp only [hrec, Bool.not_false, Bool.true_and] at h
    cases hinst : c.instances g with
    | none => simp [hinst] at h
    | some inst =>
      simp only [hinst] at h
      cases hA : inst.activeServer with
      | none => simp [hA] at h
      | some serverId =>
        simp only [hA] at h
        cases hsi : inst.serverList serverId with
        | none => simp [hsi] at h
        | some si =>
          simp only [hsi, Option.isSome_some, Bool.true_and] at h
          have hop : observedOperational c g = false := by
            revert h
            cases observedOperational c g <;> simp
          exact ⟨inst, serverId, si, rfl, hA, hsi,
            by simp [checkGuildConnection, hrec, hinst, hA, hsi, hop]⟩

end Client

/-- C6 counterexample: the Backoff State Machine's per-tenant state says an
episode is in flight (`isReconnecting = true`), so its guarded entry point
would reject any request, yet the Reconciliation Loop creates a new Transport
Connection for the tenant directly — without consulting the
`ReconnectionManager`, whose state is untouched. -/
theorem reconciliation_bypasses_backoff_counterexample :
    (bypassClient.rmState "g1").map GuildState.isReconnecting = some true
    ∧ (checkGuildConnection bypassClient "g1").created = [("g1", "1.2.3.4", 28082)]
    ∧ (checkGuildConnection bypassClient "g1").rmState "g1" = bypassClient.rmState "g1" := by
  exact ⟨rfl, rfl, rfl⟩

/-- C6 amended: the transport error callback and the Health Prober route every
reconnection through the single guarded entry point
`ReconnectionManager.attemptReconnection` and never call the connection
factory themselves; the Reconciliation Loop however creates Transport
Connections directly through `createRustplusInstance`, guarded only by its own
`rustplusReconnecting` flag and bypassing the Backoff State Machine. -/
theorem reconnection_trigger_routing (cfg : Config) (c : ClientState) (g : GuildId)
    (reason : String) (jn jd now : Nat) :
    (∀ rp : RustplusInstance, c.rustplusInstances g = some rp → rp.isDeleted = false →
      c.activeRustplusInstances g = true →
      triggerReconnection cfg c g reason jn jd now
        = { c with rmState := attemptReconnection cfg c.rmState g reason jn jd now })
    ∧ (∀ rp : RustplusInstance, c.rustplusInstances g = some rp →
      (triggerHealthCheckReconnection cfg c g jn jd now).rmState
        = attemptReconnection cfg c.rmState g "health_check_failure" jn jd now
      ∧ (triggerHealthCheckReconnection cfg c g jn jd now).created = c.created
      ∧ (triggerServerRestartReconnection cfg c g jn jd now).rmState
        = attemptReconnection cfg c.rmState g "server_restart_detected" jn jd now
      ∧ (triggerServerRestartReconnection cfg c g jn jd now).created = c.created)
    ∧ (∀ (inst : GuildInstance) (serverId : String) (si : ServerEntry),
        c.instances g = some inst → inst.activeServer = some serverId →
        inst.serverList serverId = some si →
        (checkGuildConnection c g).rmState = c.rmState
        ∧ (c.rustplusReconnecting g = false → observedOperational c g = false →
            (checkGuildConnection c g).created = (g, si.serverIp, si.appPort) :: c.created)) := by
  refine ⟨?_, ?_, ?_⟩
  · intro rp hrp hdel hact
    unfold triggerReconnection
    rw [hrp]
    simp [hdel, hact]
  · intro rp hrp
    unfold triggerHealthCheckReconnection triggerServerRestartReconnection
    rw [hrp]
    exact ⟨rfl, rfl, rfl, rfl⟩
  · intro inst serverId si hinst hA hsi
    refine ⟨checkGuildConnection_rmState c g, ?_⟩
    intro hrec hop
    have heq : checkGuildConnection c g = reconnectGuild c g inst := by
      simp [checkGuildConnection, hrec, hinst, hA, hsi, hop]
    rw [heq]
    exact (reconnectGuild_effects c g inst serverId si hA hsi).1

/-- Witness for C6's amended claim: the transport error callback on a live,
active tenant routes through `attemptReconnection` and creates nothing. -/
theorem reconnection_trigger_routing_witness :
    triggerReconnection defaultConfig operationalClient "g1" "connection_lost" 0 1 0
      = { operationalClient with
          rmState := attemptReconnection defaultConfig operationalClient.rmState "g1"
            "connection_lost" 0 1 0 } :=
  (reconnection_trigger_routing defaultConfig operationalClient "g1" "connection_lost"
      0 1 0).1 ⟨true, false, false, "1.2.3.4", 28082, "76561198000000000", 12345⟩ rfl rfl rfl

/-- C7 counterexample: a qualifying reconciliation sweep (active server
configured, tenant neither flagged reconnecting nor observed operational) does
reconnect — but no request with reason `reconciliation_drift` is issued: the
`ReconnectionManager` never hears of it and records no episode at all. -/
theorem reconciliation_no_drift_request_counterexample :
    sweepWouldReconnect driftClient "g1" = true
    ∧ (checkGuildConnection driftClient "g1").created = [("g1", "1.2.3.4", 28082)]
    ∧ (checkGuildConnection driftClient "g1").rmState "g1" = none := by
  exact ⟨rfl, rfl, rfl⟩

/-- C7 amended: a reconciliation sweep directly initiates exactly one
reconnection (tearing down any existing instance and calling the connection
factory) for a tenant exactly when its configuration specifies an active
server present in the server list, the tenant is not flagged
`rustplusReconnecting`, and it is not observed operational; the
`ReconnectionManager` state is never touched (no `reconciliation_drift`
request exists), and a second sweep before the episode completes is a no-op
because the first sweep set the `rustplusReconnecting` flag. -/
theorem reconciliationSweep_direct_reconnect (c : ClientState) (g : GuildId) :
    ((checkGuildConnection c g).created.length
      = if sweepWouldReconnect c g = true then c.created.length + 1 else c.created.length)
    ∧ (checkGuildConnection c g).rmState = c.rmState
    ∧ (sweepWouldReconnect c g = true →
        checkGuildConnection (checkGuildConnection c g) g = checkGuildConnection c g) := by
  refine ⟨?_, checkGuildConnection_rmState c g, ?_⟩
  · cases hsw : sweepWouldReconnect c g with
    | false =>
      rw [checkGuildConnection_not_triggered c g hsw]
      simp
    | true =>
      obtain ⟨inst, serverId, si, hinst, hA, hsi, heq⟩ := checkGuildConnection_triggered c g hsw
      rw [heq, (reconnectGuild_effects c g inst serverId si hA hsi).1]
      simp
  · intro hsw
    obtain ⟨inst, serverId, si, hinst, hA, hsi, heq⟩ := checkGuildConnection_triggered c g hsw
    have hflag : (checkGuildConnection c g).rustplusReconnecting g = true := by
      rw [heq]
      exact (reconnectGuild_effects c g inst serverId si hA hsi).2.2.1
    exact checkGuildConnection_of_reconnecting _ g hflag

/-- Witness for C7's amended claim: on the drifting tenant, a second sweep
right after the first is a no-op. -/
theorem reconciliationSweep_direct_reconnect_witness :
    checkGuildConnection (checkGuildConnection driftClient "g1") "g1"
      = checkGuildConnection driftClient "g1" :=
  (reconciliationSweep_direct_reconnect driftClient "g1").2.2 rfl

/-- C9 counterexample: the tenant is observed operational and an attempt is
flagged in flight, yet `forceReconnectGuild` tears the connection down and
restarts it: a creation is logged and the fresh instance is not operational. -/
theorem forceReconnect_guard_counterexample :
    observedOperational operationalClient "g1" = true
    ∧ operationalClient.rustplusReconnecting "g1" = true
    ∧ (forceReconnectGuild operationalClient "g1").created = [("g1", "1.2.3.4", 28082)]
    ∧ ((forceReconnectGuild operationalClient "g1").rustplusInstances "g1").map
        RustplusInstance.isOperational = some false := by
  exact ⟨rfl, rfl, rfl, rfl⟩

/-- C9 amended: `forceReconnectGuild` reconnects whenever the tenant has
configuration with an active server in its server list, unconditionally — it
checks neither the operational state nor any reconnecting guard, tears down
any existing connection, sets the reconnecting flag and creates a fresh
instance marked as a new connection. -/
theorem forceReconnect_unconditional (c : ClientState) (g : GuildId)
    (inst : GuildInstance) (serverId : String) (si : ServerEntry)
    (hinst : c.instances g = some inst) (hA : inst.activeServer = some serverId)
    (hsi : inst.serverList serverId = some si) :
    forceReconnectGuild c g = reconnectGuild c g inst
    ∧ (forceReconnectGuild c g).created = (g, si.serverIp, si.appPort) :: c.created
    ∧ (forceReconnectGuild c g).rustplusReconnecting g = true
    ∧ ((forceReconnectGuild c g).rustplusInstances g).map RustplusInstance.isNewConnection
        = some true := by
  have heq : forceReconnectGuild c g = reconnectGuild c g inst := by
    simp [forceReconnectGuild, hinst, hA]
  obtain ⟨h1, _, h3, h4, _⟩ := reconnectGuild_effects c g inst serverId si hA hsi
  rw [heq]
  exact ⟨rfl, h1, h3, h4⟩

/-- Witness for C9's amended claim on the operational, mid-flight tenant. -/
theorem forceReconnect_unconditional_witness :
    (forceReconnectGuild operationalClient "g1").created = [("g1", "1.2.3.4", 28082)]
    ∧ ((forceReconnectGuild operationalClient "g1").rustplusInstances "g1").map
        RustplusInstance.isNewConnection = some true :=
  ⟨(forceReconnect_unconditional operationalClient "g1" sampleInstance "srvA"
      ⟨"1.2.3.4", 28082, "76561198000000000", 12345⟩ rfl rfl rfl).2.1,
   (forceReconnect_unconditional operationalClient "g1" sampleInstance "srvA"
      ⟨"1.2.3.4", 28082, "76561198000000000", 12345⟩ rfl rfl rfl).2.2.2⟩
